import Mathlib

/-!
Verification model of the BMI160 + BMM150 composite IMU driver
(`IMU_BMI160_BMM150.cpp`).

The driver talks to an external two-wire bus.  The bus helpers
`i2c_device_exists`, `i2c_safe_write` and `i2c_safe_read` are the
interface surface consumed by the driver logic; we model them as an
oracle whose answer may depend on the transaction index (so the
environment may answer differently over time).  Real-time delays
(`delay`, `millis` timeout loops inside the helpers) are irrelevant to
the verified logic and are not modelled; the `millis()` timestamp read
by the rate limiter is an explicit input.

Machine integers are modelled as `Nat`/`Int` with explicit reduction
modulo `2^16` / `2^32` where the C code can wrap.
-/

namespace IMUDrv

set_option maxRecDepth 4096

/-- Reinterpret an integer as a signed 16-bit value (two's complement),
as the C cast `(int16_t)x` / a store into `int16_t` does. -/
def asInt16 (n : Int) : Int := (n + 32768) % 65536 - 32768

/-- Reinterpret an integer as a signed 32-bit value (two's complement),
as storing into a C `int32_t` does. -/
def asInt32 (n : Int) : Int := (n + 2147483648) % 4294967296 - 2147483648

/-- The 32-bit unsigned pattern of an integer, as the C conversion of a
signed value to `uint32_t` produces. -/
def u32pat (x : Int) : Nat := (x % 4294967296).toNat

/-- C bitwise `|` at `int` (32-bit) width: or of the two's-complement
patterns, reinterpreted as signed. -/
def orInt (x y : Int) : Int := asInt32 (((u32pat x ||| u32pat y : Nat) : Int))

/-- Arithmetic right shift (the behaviour of C `>>` on a signed value on
this target): floor division by `2^k`. -/
def asr (x : Int) (k : Nat) : Int := Int.fdiv x (2 ^ k)

/-- The specification-side notion: the little-endian signed 16-bit word
with low byte `lo` and high byte `hi`. -/
def le16 (lo hi : Nat) : Int :=
  if lo + 256 * hi < 32768 then (lo + 256 * hi : Int) else (lo + 256 * hi : Int) - 65536

/-- Source expression `(int16_t)((hi << 8) | lo)` (the cast applies to the
whole word, as in `read_bmm150_forced`). -/
def castWord (lo hi : Nat) : Int := asInt16 ((hi <<< 8 ||| lo : Nat) : Int)

/-- Source expression `(int16_t)(hi << 8) | lo` (the cast applies to the
high byte only, then the `|` happens at `int` width after sign extension,
and the result is stored into an `int16_t`, as in `IMU_readData`). -/
def castHiOrLo (lo hi : Nat) : Int :=
  asInt16 (orInt (asInt16 ((hi <<< 8 : Nat) : Int)) ((lo : Nat) : Int))


/-! ## Register map (the C `#define`s) -/

def BMI160_ADDR_68 : Nat := 0x68
def BMI160_ADDR_69 : Nat := 0x69
def BMI160_CHIP_ID : Nat := 0x00
def BMI160_CMD : Nat := 0x7E
def BMI160_ACC_CONF : Nat := 0x40
def BMI160_ACC_RANGE : Nat := 0x41
def BMI160_GYR_CONF : Nat := 0x42
def BMI160_GYR_RANGE : Nat := 0x43
def BMI160_MAG_IF_0 : Nat := 0x4B
def BMI160_MAG_IF_1 : Nat := 0x4C
def BMI160_MAG_IF_2 : Nat := 0x4D
def BMI160_MAG_IF_3 : Nat := 0x4E
def BMI160_MAG_IF_4 : Nat := 0x4F
def BMI160_MAG_CONF : Nat := 0x44
def BMI160_DATA_0 : Nat := 0x04
def BMI160_STATUS : Nat := 0x1B
def BMI160_BMM150_IF : Nat := 0x7D
def BMI160_CMD_SOFTRESET : Nat := 0xB6
def BMI160_CMD_ACC_NORMAL : Nat := 0x11
def BMI160_CMD_GYR_NORMAL : Nat := 0x15
def BMI160_CMD_MAG_NORMAL : Nat := 0x19
def BMM150_CHIP_ID : Nat := 0x40
def BMM150_POWER : Nat := 0x4B
def BMM150_OPMODE : Nat := 0x4C
def BMM150_DATA_X : Nat := 0x42
def BMM150_FORCED_MODE : Nat := 0x02

/-! ## The external bus

Each helper call consumes one transaction index, and the environment may
answer depending on that index, so time-varying device behaviour is
expressible. -/

/-- The external two-wire bus, as seen through the three helper calls the
driver makes.  Arguments: transaction index, device address, register
(plus value / length). -/
structure Bus where
  probe : Nat → Nat → Nat → Option Nat
  write : Nat → Nat → Nat → Nat → Bool
  read : Nat → Nat → Nat → Nat → Option (List Nat)

/-- Model of `i2c_device_exists(addr, &chip_id, reg)`: `some id` when the device
answers with identity byte `id`. -/
def i2c_device_exists (bus : Bus) (t addr reg : Nat) : Option Nat × Nat :=
  (bus.probe t addr reg, t + 1)

/-- Model of `i2c_safe_write(addr, reg, val)`. -/
def i2c_safe_write (bus : Bus) (t addr reg val : Nat) : Bool × Nat :=
  (bus.write t addr reg val, t + 1)

/-- Model of `i2c_safe_read(addr, reg, buf, len)`: `some bytes` on success. -/
def i2c_safe_read (bus : Bus) (t addr reg len : Nat) : Option (List Nat) × Nat :=
  (bus.read t addr reg len, t + 1)

/-- Run the continuation only if the previous bus operation succeeded
(the C early-`return false` / dangling-`if` pattern). -/
def seqW (r : Bool × Nat) (k : Nat → Bool × Nat) : Bool × Nat :=
  if r.1 then k r.2 else (false, r.2)

/-! ## Process-wide driver state (the C statics) -/

/-- Wiring mode of the magnetometer (C `enum MagMode`): `NONE` = absent,
`PRIMARY` = wired directly to the bus, `SECONDARY` = bridged through the
BMI160 secondary interface. -/
inductive MagMode
  | NONE
  | PRIMARY
  | SECONDARY
deriving DecidableEq

structure SensorConfig where
  acc_odr : Nat
  acc_range : Nat
  gyr_odr : Nat
  gyr_range : Nat
deriving DecidableEq

/-- One raw sample: accelerometer, gyroscope and magnetometer axes plus
the auxiliary RHALL word, all int16-valued. -/
structure RawSample where
  ax : Int
  ay : Int
  az : Int
  gx : Int
  gy : Int
  gz : Int
  mx : Int
  my : Int
  mz : Int
  rh : Int
deriving DecidableEq

def zeroSample : RawSample := ⟨0, 0, 0, 0, 0, 0, 0, 0, 0, 0⟩

/-- The static accumulator of `IMU_readDataWithFrequency`: per-axis
`int32_t` running sums, the `uint32_t` sample counter and the last flush
timestamp. -/
structure Accum where
  acc0 : Int
  acc1 : Int
  acc2 : Int
  gyr0 : Int
  gyr1 : Int
  gyr2 : Int
  mag0 : Int
  mag1 : Int
  mag2 : Int
  rhall : Int
  samples : Nat
  last_time : Nat
deriving DecidableEq

def emptyAccum : Accum := ⟨0, 0, 0, 0, 0, 0, 0, 0, 0, 0, 0, 0⟩

/-- All process-wide mutable state of the driver.  The C floats `ACC_LSB`
and `GYR_LSB` only ever hold values copied from a literal table, so they
are modelled exactly as rationals. -/
structure Globals where
  bmi160_addr : Nat
  bmm150_addr : Nat
  mag_mode : MagMode
  config : SensorConfig
  initialized : Bool
  ACC_LSB : Rat
  GYR_LSB : Rat
  accum : Accum
deriving DecidableEq

def initialConfig : SensorConfig :=
  { acc_odr := 0x28, acc_range := 0x05, gyr_odr := 0x28, gyr_range := 0x00 }

/-- The static initializers of the C translation unit.
`16384 / 1000` is the float literal `16.384`. -/
def initialGlobals : Globals :=
  { bmi160_addr := 0, bmm150_addr := 0, mag_mode := MagMode.NONE,
    config := initialConfig, initialized := false,
    ACC_LSB := 8192, GYR_LSB := 16384 / 1000, accum := emptyAccum }

/-! ## Conversion factors -/

/-- Accelerometer half of `update_conversion_factors` (C `switch` on
`config.acc_range`; an unlisted code leaves the factor unchanged). -/
def apply_acc_lut (g : Globals) : Globals :=
  match g.config.acc_range with
  | 0x03 => { g with ACC_LSB := 16384 }
  | 0x05 => { g with ACC_LSB := 8192 }
  | 0x08 => { g with ACC_LSB := 4096 }
  | 0x0C => { g with ACC_LSB := 2048 }
  | _ => g

/-- Gyroscope half of `update_conversion_factors` (the rationals are the
float literals 16.384, 32.768, 65.536, 131.072, 262.144). -/
def apply_gyr_lut (g : Globals) : Globals :=
  match g.config.gyr_range with
  | 0x00 => { g with GYR_LSB := 16384 / 1000 }
  | 0x01 => { g with GYR_LSB := 32768 / 1000 }
  | 0x02 => { g with GYR_LSB := 65536 / 1000 }
  | 0x03 => { g with GYR_LSB := 131072 / 1000 }
  | 0x04 => { g with GYR_LSB := 262144 / 1000 }
  | _ => g

def update_conversion_factors (g : Globals) : Globals := apply_gyr_lut (apply_acc_lut g)

/-! ## Discovery helpers -/

/-- A probe-and-break `for` loop over candidate addresses: returns the
first address accepted by `step`, threading the transaction index. -/
def scanLoop (step : Nat → Nat → Bool × Nat) : List Nat → Nat → Option Nat × Nat
  | [], t => (none, t)
  | a :: rest, t =>
    let r := step t a
    if r.1 then (some a, r.2) else scanLoop step rest r.2

/-- Model of `init_bmm150_primary`: power the BMM150 on and accept exactly on
identity byte 0x32. -/
def init_bmm150_primary (bus : Bus) (t addr : Nat) : Bool × Nat :=
  let w := i2c_safe_write bus t addr BMM150_POWER 0x01
  if w.1 then
    match i2c_safe_read bus w.2 addr BMM150_CHIP_ID 1 with
    | (some b, t2) => (b.getD 0 0 == 0x32, t2)
    | (none, t2) => (false, t2)
  else (false, w.2)

/-- Data-ready polling loop of `init_bmm150_secondary` (step 12): read
STATUS; on `drdy_mag` read the 8-byte shadow window and succeed iff it is
not all zero; otherwise keep polling with the remaining budget. -/
def secondary_poll (bus : Bus) (bmi : Nat) : Nat → Nat → Bool × Nat
  | 0, t => (false, t)
  | n + 1, t =>
    match i2c_safe_read bus t bmi BMI160_STATUS 1 with
    | (some st, t1) =>
      if st.getD 0 0 &&& (1 <<< 5) ≠ 0 then
        match i2c_safe_read bus t1 bmi BMI160_DATA_0 8 with
        | (some d, t2) =>
          if d.all (fun x => x == 0) then secondary_poll bus bmi n t2 else (true, t2)
        | (none, t2) => secondary_poll bus bmi n t2
      else secondary_poll bus bmi n t1
    | (none, t1) => secondary_poll bus bmi n t1

/-- Best-effort final read of the shadow window after the polling budget
is exhausted (step 13): accept iff the bytes are not all zero. -/
def secondary_final_attempt (bus : Bus) (bmi : Nat) (t : Nat) : Bool × Nat :=
  match i2c_safe_read bus t bmi BMI160_DATA_0 8 with
  | (some d, t1) => (!(d.all (fun x => x == 0)), t1)
  | (none, t1) => (false, t1)

/-- Model of `init_bmm150_secondary(phys_addr)`: the bridge configuration
sequencer.  Any failed write aborts with failure; a power-status readback
differing from 0x01 aborts; then the data-ready poll (200 tries) and, if
it never fires, one best-effort shadow read decide the outcome. -/
def init_bmm150_secondary (bus : Bus) (bmi : Nat) (t phys_addr : Nat) : Bool × Nat :=
  let sec_addr := phys_addr >>> 1
  match i2c_device_exists bus t bmi BMI160_CHIP_ID with
  | (none, t1) => (false, t1)
  | (some _, t1) =>
    seqW (i2c_safe_write bus t1 bmi BMI160_MAG_IF_0 sec_addr) fun t =>
    seqW (i2c_safe_write bus t bmi BMI160_MAG_IF_1 0x80) fun t =>
    seqW (i2c_safe_write bus t bmi BMI160_MAG_IF_3 0x4B) fun t =>
    seqW (i2c_safe_write bus t bmi BMI160_MAG_IF_4 0x01) fun t =>
    seqW (i2c_safe_write bus t bmi BMI160_MAG_IF_1 (0x80 ||| (1 <<< 7))) fun t =>
    seqW (i2c_safe_write bus t bmi BMI160_MAG_IF_3 0x4B) fun t =>
    seqW (i2c_safe_write bus t bmi BMI160_MAG_IF_1 0x00) fun t =>
    match i2c_safe_read bus t bmi BMI160_MAG_IF_4 1 with
    | (none, t2) => (false, t2)
    | (some ps, t2) =>
      if ps.getD 0 0 ≠ 0x01 then (false, t2)
      else
        seqW (i2c_safe_write bus t2 bmi BMI160_MAG_IF_3 0x4C) fun t =>
        seqW (i2c_safe_write bus t bmi BMI160_MAG_IF_4 0x06) fun t =>
        seqW (i2c_safe_write bus t bmi BMI160_MAG_IF_1 (0x80 ||| (1 <<< 7))) fun t =>
        seqW (i2c_safe_write bus t bmi BMI160_MAG_CONF 0x0B) fun t =>
        seqW (i2c_safe_write bus t bmi BMI160_MAG_IF_2 0x42) fun t =>
        seqW (i2c_safe_write bus t bmi BMI160_MAG_IF_1 0x03) fun t =>
        seqW (i2c_safe_write bus t bmi BMI160_CMD BMI160_CMD_MAG_NORMAL) fun t =>
        let p := secondary_poll bus bmi 200 t
        if p.1 then (true, p.2) else secondary_final_attempt bus bmi p.2

/-- STATUS `drdy_mag` polling loop used by `send_forced_mode_secondary`. -/
def drdy_poll (bus : Bus) (bmi : Nat) : Nat → Nat → Bool × Nat
  | 0, t => (false, t)
  | n + 1, t =>
    match i2c_safe_read bus t bmi BMI160_STATUS 1 with
    | (some st, t1) =>
      if st.getD 0 0 &&& (1 <<< 5) ≠ 0 then (true, t1) else drdy_poll bus bmi n t1
    | (none, t1) => drdy_poll bus bmi n t1

/-- Model of `send_forced_mode_secondary`: relay one forced-mode command through
the passthrough bank, poll for readiness (50 tries), on failure re-issue
the power-on sequence (results ignored) and poll once more. -/
def send_forced_mode_secondary (bus : Bus) (bmi : Nat) (t addr : Nat) : Bool × Nat :=
  seqW (i2c_safe_write bus t bmi BMI160_BMM150_IF 0x01) fun t =>
  seqW (i2c_safe_write bus t bmi BMI160_MAG_IF_0 addr) fun t =>
  seqW (i2c_safe_write bus t bmi BMI160_MAG_IF_1 0x80) fun t =>
  seqW (i2c_safe_write bus t bmi BMI160_MAG_IF_3 BMM150_OPMODE) fun t =>
  seqW (i2c_safe_write bus t bmi BMI160_MAG_IF_4 BMM150_FORCED_MODE) fun t =>
  seqW (i2c_safe_write bus t bmi BMI160_MAG_IF_1 (0x80 ||| (1 <<< 7))) fun t =>
  let p := drdy_poll bus bmi 50 t
  if p.1 then (true, p.2)
  else
    let t1 := (i2c_safe_write bus p.2 bmi BMI160_MAG_IF_3 0x4B).2
    let t2 := (i2c_safe_write bus t1 bmi BMI160_MAG_IF_4 0x01).2
    let t3 := (i2c_safe_write bus t2 bmi BMI160_MAG_IF_1 (0x80 ||| (1 <<< 7))).2
    drdy_poll bus bmi 50 t3

/-- Model of `read_bmm150_forced`: direct forced-mode read; on any bus failure all
four outputs are the zero sentinel.  X/Y are the signed words at offsets
0-1/2-3 shifted right 3, Z the word at 4-5 shifted right 1, RHALL the
word at 6-7 unshifted. -/
def read_bmm150_forced (bus : Bus) (t bmm : Nat) : (Int × Int × Int × Int) × Nat :=
  let w := i2c_safe_write bus t bmm BMM150_OPMODE BMM150_FORCED_MODE
  if !w.1 then ((0, 0, 0, 0), w.2)
  else
    match i2c_safe_read bus w.2 bmm BMM150_DATA_X 8 with
    | (none, t1) => ((0, 0, 0, 0), t1)
    | (some buf, t1) =>
      ((asInt16 (asr (castWord (buf.getD 0 0) (buf.getD 1 0)) 3),
        asInt16 (asr (castWord (buf.getD 2 0) (buf.getD 3 0)) 3),
        asInt16 (asr (castWord (buf.getD 4 0) (buf.getD 5 0)) 1),
        castWord (buf.getD 6 0) (buf.getD 7 0)), t1)

/-- BMI160 configuration block of `IMU_begin` (source lines 763-810).
With debug printing compiled out, each C `if (i2c_safe_write(...))`
followed only by a `#ifdef`-guarded statement chains into a nested `if`,
so each of the first five writes is attempted only if the previous one
succeeded; the two power-mode commands are then always attempted.  Only
the transaction count is relevant to later stages. -/
def bmi160_config (bus : Bus) (bmi : Nat) (cfg : SensorConfig) (t : Nat) : Nat :=
  let r :=
    seqW (i2c_safe_write bus t bmi BMI160_ACC_CONF cfg.acc_odr) fun t =>
    seqW (i2c_safe_write bus t bmi BMI160_ACC_RANGE cfg.acc_range) fun t =>
    seqW (i2c_safe_write bus t bmi BMI160_GYR_CONF cfg.gyr_odr) fun t =>
    seqW (i2c_safe_write bus t bmi BMI160_GYR_RANGE cfg.gyr_range) fun t =>
    i2c_safe_write bus t bmi BMI160_CMD BMI160_CMD_SOFTRESET
  let t5 := (i2c_safe_write bus r.2 bmi BMI160_CMD BMI160_CMD_ACC_NORMAL).2
  (i2c_safe_write bus t5 bmi BMI160_CMD BMI160_CMD_GYR_NORMAL).2

/-! ## `IMU_begin` as a composition of its stages

The C statics start from their initializers; discovery runs once (the
specification declares re-entry undefined), so `IMU_begin` is modelled
from `initialGlobals`.  Every guard reads the same live state fields the
source reads. -/

def bmi160_candidates : List Nat := [BMI160_ADDR_68, BMI160_ADDR_69]
def bmm150_candidates : List Nat := [0x10, 0x11, 0x12, 0x13]
def sweep_addresses : List Nat := List.range 128

/-- One probe of the BMI160 search: device answers and identity is 0xD1. -/
def bmi_probe_step (bus : Bus) (t a : Nat) : Bool × Nat :=
  let r := i2c_device_exists bus t a BMI160_CHIP_ID
  (r.1 == some 0xD1, r.2)

def begin_tier1 (bus : Bus) : Option Nat × Nat :=
  scanLoop (bmi_probe_step bus) bmi160_candidates 0

def begin_g1 (bus : Bus) : Globals :=
  { initialGlobals with bmi160_addr := (begin_tier1 bus).1.getD 0 }

def begin_t2 (bus : Bus) : Nat :=
  if (begin_g1 bus).bmi160_addr ≠ 0 then
    bmi160_config bus (begin_g1 bus).bmi160_addr (begin_g1 bus).config (begin_tier1 bus).2
  else (begin_tier1 bus).2

def begin_g2 (bus : Bus) : Globals :=
  if (begin_g1 bus).bmi160_addr ≠ 0 then update_conversion_factors (begin_g1 bus)
  else begin_g1 bus

/-- Tier 3: direct search on 0x10-0x13. -/
def begin_direct (bus : Bus) : Option Nat × Nat :=
  scanLoop (init_bmm150_primary bus) bmm150_candidates (begin_t2 bus)

def begin_g3 (bus : Bus) : Globals :=
  match (begin_direct bus).1 with
  | some a => { begin_g2 bus with bmm150_addr := a, mag_mode := MagMode.PRIMARY }
  | none => begin_g2 bus

/-- Source guard `bmi160_addr && !bmm150_addr` before the bridged search. -/
def begin_bridged_guard (bus : Bus) : Bool :=
  (begin_g3 bus).bmi160_addr != 0 && (begin_g3 bus).bmm150_addr == 0

/-- Tier 4: bridged search on 0x10-0x13 (evaluated at the post-tier-3
transaction index; consulted only under `begin_bridged_guard`). -/
def begin_bridged (bus : Bus) : Option Nat × Nat :=
  scanLoop (init_bmm150_secondary bus (begin_g3 bus).bmi160_addr) bmm150_candidates
    (begin_direct bus).2

def begin_g4 (bus : Bus) : Globals :=
  if begin_bridged_guard bus then
    match (begin_bridged bus).1 with
    | some a => { begin_g3 bus with bmm150_addr := a, mag_mode := MagMode.SECONDARY }
    | none => begin_g3 bus
  else begin_g3 bus

def begin_t4 (bus : Bus) : Nat :=
  if begin_bridged_guard bus then (begin_bridged bus).2 else (begin_direct bus).2

/-- Source guard of the full-bus sweep: still inside the tier-4 block and
`!bmm150_addr` after the bridged attempt. -/
def begin_sweep_guard (bus : Bus) : Bool :=
  begin_bridged_guard bus && (begin_g4 bus).bmm150_addr == 0

/-- One probe of the full-bus sweep: BMM150 identity register reads 0x32. -/
def bmm_sweep_step (bus : Bus) (t a : Nat) : Bool × Nat :=
  let r := i2c_device_exists bus t a BMM150_CHIP_ID
  (r.1 == some 0x32, r.2)

/-- Tier 5: the 0x00-0x7F sweep (consulted only under
`begin_sweep_guard`). -/
def begin_sweep (bus : Bus) : Option Nat × Nat :=
  scanLoop (bmm_sweep_step bus) sweep_addresses (begin_t4 bus)

def begin_g5 (bus : Bus) : Globals :=
  if begin_sweep_guard bus then
    match (begin_sweep bus).1 with
    | some a => { begin_g4 bus with bmm150_addr := a, mag_mode := MagMode.PRIMARY }
    | none => begin_g4 bus
  else begin_g4 bus

/-- Final step of `IMU_begin`: `initialized` is set iff `bmm150_addr` is
non-zero, and the function returns `initialized`. -/
def begin_g6 (bus : Bus) : Globals :=
  if (begin_g5 bus).bmm150_addr ≠ 0 then { begin_g5 bus with initialized := true }
  else begin_g5 bus

def IMU_begin (bus : Bus) : Bool × Globals := ((begin_g6 bus).initialized, begin_g6 bus)

/-! ## Public accessors and range setters -/

def IMU_getMagMode (g : Globals) : MagMode := g.mag_mode

def IMU_isInitialized (g : Globals) : Bool := g.initialized

def IMU_setAccelRange (bus : Bus) (t : Nat) (g : Globals) (r : Nat) : Globals × Nat :=
  if g.bmi160_addr ≠ 0 then
    let w := i2c_safe_write bus t g.bmi160_addr BMI160_ACC_RANGE r
    (update_conversion_factors { g with config := { g.config with acc_range := r } }, w.2)
  else (g, t)

def IMU_setGyroRange (bus : Bus) (t : Nat) (g : Globals) (r : Nat) : Globals × Nat :=
  if g.bmi160_addr ≠ 0 then
    let w := i2c_safe_write bus t g.bmi160_addr BMI160_GYR_RANGE r
    (update_conversion_factors { g with config := { g.config with gyr_range := r } }, w.2)
  else (g, t)

/-! ## Sample reader -/

/-- Decode of the 20-byte burst window of `IMU_readData` (source lines
908-927): accelerometer at byte offsets 14-19, gyroscope at 8-13, and
the magnetometer portion (offsets 0-7) only in SECONDARY mode, the
outputs staying at their zero reset otherwise. -/
def decode20 (mode : MagMode) (buf : List Nat) : RawSample :=
  let b := fun i => buf.getD i 0
  { ax := castHiOrLo (b 14) (b 15)
    ay := castHiOrLo (b 16) (b 17)
    az := castHiOrLo (b 18) (b 19)
    gx := castHiOrLo (b 8) (b 9)
    gy := castHiOrLo (b 10) (b 11)
    gz := castHiOrLo (b 12) (b 13)
    mx := if mode = MagMode.SECONDARY then castHiOrLo (b 0) (b 1) else 0
    my := if mode = MagMode.SECONDARY then castHiOrLo (b 2) (b 3) else 0
    mz := if mode = MagMode.SECONDARY then castHiOrLo (b 4) (b 5) else 0
    rh := if mode = MagMode.SECONDARY then castHiOrLo (b 6) (b 7) else 0 }

/-- Transaction index at which `IMU_readData` issues its burst read: in
SECONDARY mode the bridged forced-mode trigger runs first (its success
only gates a delay). -/
def readData_burst_tick (bus : Bus) (t : Nat) (g : Globals) : Nat :=
  if g.mag_mode = MagMode.SECONDARY then
    (send_forced_mode_secondary bus g.bmi160_addr t g.bmm150_addr).2
  else t

/-- Model of `IMU_readData`: outputs are reset to zero; if the BMI160 is present,
burst-read 20 bytes (after the bridged trigger in SECONDARY mode) and
decode; in PRIMARY mode the magnetometer fields are then produced by the
direct forced-mode read.  No process-global is assigned, so the globals
come back unchanged. -/
def IMU_readData (bus : Bus) (t : Nat) (g : Globals) : RawSample × Globals × Nat :=
  let st :=
    if g.bmi160_addr ≠ 0 then
      match i2c_safe_read bus (readData_burst_tick bus t g) g.bmi160_addr BMI160_DATA_0 20 with
      | (some buf, t1) => (decode20 g.mag_mode buf, t1)
      | (none, t1) => (zeroSample, t1)
    else (zeroSample, t)
  let res :=
    if g.mag_mode = MagMode.PRIMARY then
      let r := read_bmm150_forced bus st.2 g.bmm150_addr
      ({ st.1 with mx := r.1.1, my := r.1.2.1, mz := r.1.2.2.1, rh := r.1.2.2.2 }, r.2)
    else (st.1, st.2)
  (res.1, g, res.2)

/-! ## Rate limiter / averager -/

/-- The C expression `<int32_t sum> / <uint32_t samples>`: the usual
arithmetic conversions convert the signed sum to `uint32_t`, so this is
an unsigned division of the sum's 32-bit pattern. -/
def u32div (sum : Int) (n : Nat) : Nat := u32pat sum / n

/-- The `max_frequency` computation of `IMU_readDataWithFrequency` (ACC cap
1600, GYR cap 3200, MAG cap 100 when a magnetometer is present). -/
def rdwf_maxFrequency (mode : MagMode) : Rat :=
  let m : Rat := 1600
  let m := if m > 3200 then (3200 : Rat) else m
  if mode ≠ MagMode.NONE ∧ m > 100 then (100 : Rat) else m

/-- Requested frequency after the non-positive fallback (10 Hz) and the
clamp to `max_frequency`. -/
def rdwf_frequency (mode : MagMode) (freq : Rat) : Rat :=
  let f := if freq ≤ 0 then (10 : Rat) else freq
  let m := rdwf_maxFrequency mode
  if f > m then m else f

/-- C expression `interval = (unsigned long)(1000.0f / frequency)`: truncation of a
positive quotient is the floor. -/
def rdwf_interval (mode : MagMode) (freq : Rat) : Nat :=
  ((1000 : Rat) / rdwf_frequency mode freq).floor.toNat

/-- The two unconditional output-rate pushes (ACC_CONF / GYR_CONF to
0x0C) performed on every call while the BMI160 is present; only the
transaction count matters. -/
def rdwf_conf_tick (bus : Bus) (t : Nat) (g : Globals) : Nat :=
  if g.bmi160_addr ≠ 0 then
    (i2c_safe_write bus (i2c_safe_write bus t g.bmi160_addr BMI160_ACC_CONF 0x0C).2
      g.bmi160_addr BMI160_GYR_CONF 0x0C).2
  else t

/-- Fold one raw sample into the running `int32_t` sums and bump the
`uint32_t` counter. -/
def accumulateSample (a : Accum) (s : RawSample) : Accum :=
  { a with
    acc0 := asInt32 (a.acc0 + s.ax)
    acc1 := asInt32 (a.acc1 + s.ay)
    acc2 := asInt32 (a.acc2 + s.az)
    gyr0 := asInt32 (a.gyr0 + s.gx)
    gyr1 := asInt32 (a.gyr1 + s.gy)
    gyr2 := asInt32 (a.gyr2 + s.gz)
    mag0 := asInt32 (a.mag0 + s.mx)
    mag1 := asInt32 (a.mag1 + s.my)
    mag2 := asInt32 (a.mag2 + s.mz)
    rhall := asInt32 (a.rhall + s.rh)
    samples := (a.samples + 1) % 4294967296 }

/-- The averaged values written to the caller's `int16_t` buffers on a
flush. -/
def flushSample (a : Accum) : RawSample :=
  { ax := asInt16 ((u32div a.acc0 a.samples : Nat) : Int)
    ay := asInt16 ((u32div a.acc1 a.samples : Nat) : Int)
    az := asInt16 ((u32div a.acc2 a.samples : Nat) : Int)
    gx := asInt16 ((u32div a.gyr0 a.samples : Nat) : Int)
    gy := asInt16 ((u32div a.gyr1 a.samples : Nat) : Int)
    gz := asInt16 ((u32div a.gyr2 a.samples : Nat) : Int)
    mx := asInt16 ((u32div a.mag0 a.samples : Nat) : Int)
    my := asInt16 ((u32div a.mag1 a.samples : Nat) : Int)
    mz := asInt16 ((u32div a.mag2 a.samples : Nat) : Int)
    rh := asInt16 ((u32div a.rhall a.samples : Nat) : Int) }

/-- Model of `IMU_readDataWithFrequency`: clamp the frequency, push the fast
output rates, then check the elapsed time first.  On an elapsed interval
it flushes (writing averages only when `samples > 0`, resetting the
accumulator, and always updating `last_time`) and returns WITHOUT
reading; otherwise it performs exactly one `IMU_readData` and folds the
sample in, leaving the caller's buffers untouched.  `now` is the
`millis()` reading; the returned `Bool` records whether `IMU_readData`
was invoked by this call.  (The C `samples_per_interval` local is
computed but never used and is omitted.) -/
def IMU_readDataWithFrequency (bus : Bus) (t : Nat) (g : Globals) (now : Nat) (freq : Rat)
    (out : RawSample) : Globals × RawSample × Bool × Nat :=
  let interval := rdwf_interval g.mag_mode freq
  let t1 := rdwf_conf_tick bus t g
  let a := g.accum
  if now - a.last_time ≥ interval then
    if a.samples > 0 then
      ({ g with accum := { emptyAccum with last_time := now } }, flushSample a, false, t1)
    else
      ({ g with accum := { a with last_time := now } }, out, false, t1)
  else
    let r := IMU_readData bus t1 g
    ({ r.2.1 with accum := accumulateSample a r.1 }, out, true, r.2.2)

/-! ## Concrete environments used for counterexamples and witnesses -/

/-- Dead bus: no device ever answers. -/
def busNone : Bus :=
  { probe := fun _ _ _ => none, write := fun _ _ _ _ => false, read := fun _ _ _ _ => none }

/-- Only a BMI160 at 0x68 answers its identity register; every write and
multi-byte read fails. -/
def busOnlyBMI : Bus :=
  { busNone with probe := fun _ a r => if a == 0x68 && r == 0x00 then some 0xD1 else none }

/-- A BMI160 answers at 0x68 and some device at bus address 0x00 answers
the BMM150 identity register with 0x32. -/
def busSweepZero : Bus :=
  { busNone with
    probe := fun _ a r =>
      if a == 0x68 && r == 0x00 then some 0xD1
      else if r == 0x40 && a == 0x00 then some 0x32
      else none }

/-- A BMI160 answers at 0x68 and a BMM150 answers the sweep probe at
address 0x25. -/
def busSweepHit : Bus :=
  { busNone with
    probe := fun _ a r =>
      if a == 0x68 && r == 0x00 then some 0xD1
      else if r == 0x40 && a == 0x25 then some 0x32
      else none }

/-- A directly wired BMM150 at 0x10, no BMI160 anywhere. -/
def busDirectOnly : Bus :=
  { probe := fun _ _ _ => none,
    write := fun _ a r v => a == 0x10 && r == 0x4B && v == 0x01,
    read := fun _ a r len =>
      if a == 0x10 && r == 0x40 && len == 1 then some [0x32] else none }

/-- A burst frame whose every axis word decodes to -8. -/
def negEightFrame : List Nat :=
  [0xF8, 0xFF, 0xF8, 0xFF, 0xF8, 0xFF, 0xF8, 0xFF, 0xF8, 0xFF,
   0xF8, 0xFF, 0xF8, 0xFF, 0xF8, 0xFF, 0xF8, 0xFF, 0xF8, 0xFF]

/-- Environment delivering `negEightFrame` on every burst read from the
BMI160 at 0x68; all writes succeed. -/
def busConstNeg : Bus :=
  { probe := fun _ _ _ => none,
    write := fun _ _ _ _ => true,
    read := fun _ a r len =>
      if a == 0x68 && r == 0x04 && len == 20 then some negEightFrame else none }

/-- Environment for the direct forced-mode decode test vector of the
specification. -/
def busForcedVector : Bus :=
  { probe := fun _ _ _ => none,
    write := fun _ a r v => a == 0x10 && r == 0x4C && v == 0x02,
    read := fun _ a r len =>
      if a == 0x10 && r == 0x42 && len == 8 then
        some [0x10, 0x00, 0x20, 0x00, 0x08, 0x00, 0x01, 0x00]
      else none }

/-- A 20-byte burst test frame with distinct bytes. -/
def burstVector : List Nat :=
  [1, 2, 3, 4, 5, 6, 7, 8, 9, 10, 11, 12, 13, 14, 15, 16, 17, 18, 19, 20]

/-- Environment delivering `burstVector` on burst reads from 0x68. -/
def busBurstVector : Bus :=
  { probe := fun _ _ _ => none, write := fun _ _ _ _ => false,
    read := fun _ a r len =>
      if a == 0x68 && r == 0x04 && len == 20 then some burstVector else none }


end IMUDrv

namespace IMUDrv

/-- Bitwise or of a `k`-bit-shifted value with a `k`-bit value is addition. -/
theorem lor_shiftLeft_add : ∀ (k : Nat), ∀ (hi : Nat), ∀ lo < 2 ^ k, hi <<< k ||| lo = hi <<< k + lo := by
  intro k
  induction k with
  | zero =>
    intro hi lo hlo
    have h0 : lo = 0 := by omega
    subst h0
    simp
  | succ k ih =>
    intro hi lo hlo
    have hpow : 2 ^ (k + 1) = 2 * 2 ^ k := by ring
    have hlt : Nat.div2 lo < 2 ^ k := by
      rw [Nat.div2_val]
      omega
    have hsh : hi <<< (k + 1) = Nat.bit false (hi <<< k) := by
      rw [Nat.shiftLeft_succ, Nat.bit_val]
      simp
    calc hi <<< (k + 1) ||| lo
        = Nat.bit false (hi <<< k) ||| Nat.bit (Nat.bodd lo) (Nat.div2 lo) := by
          rw [hsh, Nat.bit_decomp lo]
      _ = Nat.bit (false || Nat.bodd lo) (hi <<< k ||| Nat.div2 lo) := Nat.lor_bit _ _ _ _
      _ = Nat.bit (Nat.bodd lo) (hi <<< k + Nat.div2 lo) := by
          rw [Bool.false_or, ih hi _ hlt]
      _ = Nat.bit false (hi <<< k) + Nat.bit (Nat.bodd lo) (Nat.div2 lo) := Nat.bit_add _ _ _
      _ = hi <<< (k + 1) + lo := by rw [← hsh, Nat.bit_decomp lo]

/-- Bitwise or with a value whose low `k` bits are clear is addition. -/
theorem lor_of_dvd {a b k : Nat} (ha : 2 ^ k ∣ a) (hb : b < 2 ^ k) : a ||| b = a + b := by
  obtain ⟨c, rfl⟩ := ha
  have h : 2 ^ k * c = c <<< k := by rw [Nat.shiftLeft_eq]; ring
  rw [h, lor_shiftLeft_add k c b hb]

/-- The `read_bmm150_forced` spelling of the 16-bit decode agrees with the
canonical little-endian signed word, for genuine bytes. -/
theorem castWord_eq_le16 {lo hi : Nat} (hlo : lo < 256) (hhi : hi < 256) :
    castWord lo hi = le16 lo hi := by
  have h1 : hi <<< 8 ||| lo = 256 * hi + lo := by
    have h := lor_shiftLeft_add 8 hi lo (by omega)
    rw [Nat.shiftLeft_eq] at h ⊢
    omega
  unfold castWord le16 asInt16
  rw [h1]
  split <;> omega

/-- The `IMU_readData` spelling (sign-extend the cast high byte, then or at
`int` width, then store into `int16_t`) also agrees with the canonical
little-endian signed word, for genuine bytes. -/
theorem castHiOrLo_eq_le16 {lo hi : Nat} (hlo : lo < 256) (hhi : hi < 256) :
    castHiOrLo lo hi = le16 lo hi := by
  have hsh : hi <<< 8 = 256 * hi := by rw [Nat.shiftLeft_eq]; ring
  unfold castHiOrLo orInt u32pat asInt32 asInt16 le16
  rw [hsh]
  by_cases hcase : hi < 128
  · have hX : (((((256 * hi : Nat) : Int) + 32768) % 65536 - 32768) % 4294967296).toNat
        = 256 * hi := by omega
    have hY : (((lo : Nat) : Int) % 4294967296).toNat = lo := by omega
    rw [hX, hY, @lor_of_dvd (256 * hi) lo 8 ⟨hi, by ring⟩ (by omega)]
    split <;> omega
  · have hX : (((((256 * hi : Nat) : Int) + 32768) % 65536 - 32768) % 4294967296).toNat
        = 4294901760 + 256 * hi := by omega
    have hY : (((lo : Nat) : Int) % 4294967296).toNat = lo := by omega
    rw [hX, hY, @lor_of_dvd (4294901760 + 256 * hi) lo 8 ⟨16776960 + hi, by ring⟩ (by omega)]
    split <;> omega

/-- Values of `le16` sit in the signed 16-bit range. -/
theorem le16_range {lo hi : Nat} (hlo : lo < 256) (hhi : hi < 256) :
    -32768 ≤ le16 lo hi ∧ le16 lo hi < 32768 := by
  unfold le16
  split <;> omega

/-- Storing a small arithmetic shift of an in-range value into `int16_t`
loses nothing. -/
theorem asInt16_asr_of_range {x : Int} (k : Nat) (hk : k ≤ 3)
    (h1 : -32768 ≤ x) (h2 : x < 32768) : asInt16 (asr x k) = asr x k := by
  unfold asr asInt16
  have hp : (0 : Int) ≤ 2 ^ k := by positivity
  rw [Int.fdiv_eq_ediv _ hp]
  interval_cases k <;> norm_num <;> omega


/-! ## Specification-side tables and validity -/

/-- The documented accelerometer conversion table (LSB per g). -/
def accLUT (c : Nat) : Rat :=
  if c = 0x03 then 16384 else if c = 0x05 then 8192
  else if c = 0x08 then 4096 else if c = 0x0C then 2048 else 0

/-- The documented gyroscope conversion table (LSB per deg/s; the values
are the float literals 16.384 ... 262.144). -/
def gyrLUT (c : Nat) : Rat :=
  if c = 0x00 then 16384 / 1000 else if c = 0x01 then 32768 / 1000
  else if c = 0x02 then 65536 / 1000 else if c = 0x03 then 131072 / 1000
  else if c = 0x04 then 262144 / 1000 else 0

def validAccCode (c : Nat) : Prop := c ∈ [0x03, 0x05, 0x08, 0x0C]

def validGyrCode (c : Nat) : Prop := c ∈ [0x00, 0x01, 0x02, 0x03, 0x04]

instance (c : Nat) : Decidable (validAccCode c) := by unfold validAccCode; infer_instance

instance (c : Nat) : Decidable (validGyrCode c) := by unfold validGyrCode; infer_instance

/-- A state with the BMI160 recorded at 0x68 and everything else at its
reset value. -/
def gOnlyBMI : Globals := { initialGlobals with bmi160_addr := 0x68 }


/-! ## Generic facts about the probe-and-break loop -/

theorem scanLoop_mem {step : Nat → Nat → Bool × Nat} :
    ∀ {l : List Nat} {t a : Nat}, (scanLoop step l t).1 = some a → a ∈ l := by
  intro l
  induction l with
  | nil => intro t a h; simp [scanLoop] at h
  | cons x rest ih =>
    intro t a h
    simp only [scanLoop] at h
    split at h
    · simp at h
      simp [h]
    · exact List.mem_cons_of_mem x (ih h)

theorem bmm150_candidates_ne_zero : ∀ a ∈ bmm150_candidates, a ≠ 0 := by decide

theorem bmi160_candidates_ne_zero : ∀ a ∈ bmi160_candidates, a ≠ 0 := by decide

/-! ## Stage bookkeeping for `IMU_begin` -/

theorem apply_acc_lut_fields (g : Globals) :
    (apply_acc_lut g).bmi160_addr = g.bmi160_addr ∧
    (apply_acc_lut g).bmm150_addr = g.bmm150_addr ∧
    (apply_acc_lut g).mag_mode = g.mag_mode ∧
    (apply_acc_lut g).initialized = g.initialized ∧
    (apply_acc_lut g).config = g.config ∧
    (apply_acc_lut g).accum = g.accum ∧
    (apply_acc_lut g).GYR_LSB = g.GYR_LSB := by
  unfold apply_acc_lut
  split <;> simp

theorem apply_gyr_lut_fields (g : Globals) :
    (apply_gyr_lut g).bmi160_addr = g.bmi160_addr ∧
    (apply_gyr_lut g).bmm150_addr = g.bmm150_addr ∧
    (apply_gyr_lut g).mag_mode = g.mag_mode ∧
    (apply_gyr_lut g).initialized = g.initialized ∧
    (apply_gyr_lut g).config = g.config ∧
    (apply_gyr_lut g).accum = g.accum ∧
    (apply_gyr_lut g).ACC_LSB = g.ACC_LSB := by
  unfold apply_gyr_lut
  split <;> simp

theorem ucf_fields (g : Globals) :
    (update_conversion_factors g).bmi160_addr = g.bmi160_addr ∧
    (update_conversion_factors g).bmm150_addr = g.bmm150_addr ∧
    (update_conversion_factors g).mag_mode = g.mag_mode ∧
    (update_conversion_factors g).initialized = g.initialized ∧
    (update_conversion_factors g).config = g.config ∧
    (update_conversion_factors g).accum = g.accum := by
  unfold update_conversion_factors
  obtain ⟨h1, h2, h3, h4, h5, h6, h7⟩ := apply_acc_lut_fields g
  obtain ⟨k1, k2, k3, k4, k5, k6, k7⟩ := apply_gyr_lut_fields (apply_acc_lut g)
  exact ⟨k1.trans h1, k2.trans h2, k3.trans h3, k4.trans h4, k5.trans h5, k6.trans h6⟩

theorem g1_fields (bus : Bus) :
    (begin_g1 bus).bmm150_addr = 0 ∧ (begin_g1 bus).mag_mode = MagMode.NONE ∧
    (begin_g1 bus).initialized = false ∧ (begin_g1 bus).config = initialConfig := by
  unfold begin_g1
  simp [initialGlobals]

theorem g2_fields (bus : Bus) :
    (begin_g2 bus).bmm150_addr = 0 ∧ (begin_g2 bus).mag_mode = MagMode.NONE ∧
    (begin_g2 bus).initialized = false ∧
    (begin_g2 bus).bmi160_addr = (begin_g1 bus).bmi160_addr := by
  unfold begin_g2
  split
  · obtain ⟨h1, h2, h3, h4, _, _⟩ := ucf_fields (begin_g1 bus)
    obtain ⟨k1, k2, k3, _⟩ := g1_fields bus
    exact ⟨h2.trans k1, h3.trans k2, h4.trans k3, h1⟩
  · obtain ⟨k1, k2, k3, _⟩ := g1_fields bus
    exact ⟨k1, k2, k3, rfl⟩

theorem g3_of_some {bus : Bus} {a : Nat} (h : (begin_direct bus).1 = some a) :
    begin_g3 bus = { begin_g2 bus with bmm150_addr := a, mag_mode := MagMode.PRIMARY } := by
  unfold begin_g3
  rw [h]

theorem g3_of_none {bus : Bus} (h : (begin_direct bus).1 = none) :
    begin_g3 bus = begin_g2 bus := by
  unfold begin_g3
  rw [h]

theorem g4_of_guard_some {bus : Bus} {b : Nat} (hg : begin_bridged_guard bus = true)
    (h : (begin_bridged bus).1 = some b) :
    begin_g4 bus = { begin_g3 bus with bmm150_addr := b, mag_mode := MagMode.SECONDARY } := by
  unfold begin_g4
  rw [if_pos hg, h]

theorem g4_of_guard_none {bus : Bus} (hg : begin_bridged_guard bus = true)
    (h : (begin_bridged bus).1 = none) : begin_g4 bus = begin_g3 bus := by
  unfold begin_g4
  rw [if_pos hg, h]

theorem g4_of_not_guard {bus : Bus} (hg : begin_bridged_guard bus = false) :
    begin_g4 bus = begin_g3 bus := by
  unfold begin_g4
  rw [if_neg (by simp [hg])]

theorem g5_of_guard_some {bus : Bus} {c : Nat} (hg : begin_sweep_guard bus = true)
    (h : (begin_sweep bus).1 = some c) :
    begin_g5 bus = { begin_g4 bus with bmm150_addr := c, mag_mode := MagMode.PRIMARY } := by
  unfold begin_g5
  rw [if_pos hg, h]

theorem g5_of_guard_none {bus : Bus} (hg : begin_sweep_guard bus = true)
    (h : (begin_sweep bus).1 = none) : begin_g5 bus = begin_g4 bus := by
  unfold begin_g5
  rw [if_pos hg, h]

theorem g5_of_not_guard {bus : Bus} (hg : begin_sweep_guard bus = false) :
    begin_g5 bus = begin_g4 bus := by
  unfold begin_g5
  rw [if_neg (by simp [hg])]

theorem g6_bmm (bus : Bus) : (begin_g6 bus).bmm150_addr = (begin_g5 bus).bmm150_addr := by
  unfold begin_g6
  split <;> simp

theorem g6_mode (bus : Bus) : (begin_g6 bus).mag_mode = (begin_g5 bus).mag_mode := by
  unfold begin_g6
  split <;> simp

theorem g6_bmi (bus : Bus) : (begin_g6 bus).bmi160_addr = (begin_g5 bus).bmi160_addr := by
  unfold begin_g6
  split <;> simp

/-- Every stage after tier 1 preserves `initialized = false`. -/
theorem g5_init_false (bus : Bus) : (begin_g5 bus).initialized = false := by
  have h2 := (g2_fields bus).2.2.1
  have h3 : (begin_g3 bus).initialized = false := by
    rcases hd : (begin_direct bus).1 with _ | a
    · rw [g3_of_none hd]; exact h2
    · rw [g3_of_some hd]; exact h2
  have h4 : (begin_g4 bus).initialized = false := by
    rcases hg : begin_bridged_guard bus with _ | _
    · rw [g4_of_not_guard hg]; exact h3
    · rcases hb : (begin_bridged bus).1 with _ | b
      · rw [g4_of_guard_none hg hb]; exact h3
      · rw [g4_of_guard_some hg hb]; exact h3
  rcases hg : begin_sweep_guard bus with _ | _
  · rw [g5_of_not_guard hg]; exact h4
  · rcases hs : (begin_sweep bus).1 with _ | c
    · rw [g5_of_guard_none hg hs]; exact h4
    · rw [g5_of_guard_some hg hs]; exact h4

/-- The returned flag is exactly "a magnetometer address was recorded". -/
theorem g6_init_iff (bus : Bus) :
    (begin_g6 bus).initialized = true ↔ (begin_g5 bus).bmm150_addr ≠ 0 := by
  unfold begin_g6
  split
  · simp
    assumption
  · simp [g5_init_false bus]
    omega


/-- Final magnetometer address is non-zero exactly when a tier matched at
a non-zero address. -/
theorem g5_bmm_spec (bus : Bus) :
    (begin_g5 bus).bmm150_addr ≠ 0 ↔
      ((begin_direct bus).1.isSome ∨
       (begin_bridged_guard bus = true ∧ (begin_bridged bus).1.isSome) ∨
       (begin_sweep_guard bus = true ∧ ∃ a, (begin_sweep bus).1 = some a ∧ a ≠ 0)) := by
  rcases hd : (begin_direct bus).1 with _ | a
  · have h3 : begin_g3 bus = begin_g2 bus := g3_of_none hd
    have h3b : (begin_g3 bus).bmm150_addr = 0 := by rw [h3]; exact (g2_fields bus).1
    rcases hg : begin_bridged_guard bus with _ | _
    · have hsg : begin_sweep_guard bus = false := by
        unfold begin_sweep_guard; rw [hg]; rfl
      rw [g5_of_not_guard hsg, g4_of_not_guard hg, h3b]
      simp [hg, hsg]
    · rcases hb : (begin_bridged bus).1 with _ | b
      · have h4 := g4_of_guard_none hg hb
        have h4b : (begin_g4 bus).bmm150_addr = 0 := by rw [h4]; exact h3b
        have hsg : begin_sweep_guard bus = true := by
          unfold begin_sweep_guard; rw [hg, h4b]; rfl
        rcases hs : (begin_sweep bus).1 with _ | c
        · rw [g5_of_guard_none hsg hs, h4b]
          simp [hb, hs, hsg]
        · have h5 := g5_of_guard_some hsg hs
          rw [h5]
          simp [hb, hs, hsg]
      · have h4 := g4_of_guard_some hg hb
        have h4b : (begin_g4 bus).bmm150_addr = b := by rw [h4]
        have hbne : b ≠ 0 := bmm150_candidates_ne_zero b (scanLoop_mem hb)
        have hsg : begin_sweep_guard bus = false := by
          unfold begin_sweep_guard; rw [hg, h4b]; simp [hbne]
        rw [g5_of_not_guard hsg, h4b]
        simp [hg, hb, hbne]
  · have hane : a ≠ 0 := bmm150_candidates_ne_zero a (scanLoop_mem hd)
    have h3 := g3_of_some hd
    have h3b : (begin_g3 bus).bmm150_addr = a := by rw [h3]
    have hg : begin_bridged_guard bus = false := by
      unfold begin_bridged_guard; rw [h3b]; simp [hane]
    have hsg : begin_sweep_guard bus = false := by
      unfold begin_sweep_guard; rw [hg]; rfl
    rw [g5_of_not_guard hsg, g4_of_not_guard hg, h3b]
    simp [hd, hg, hane]

/-- C1 (amended): `IMU_begin` returns true iff some discovery tier
matched at a NON-ZERO address: the direct candidate probe succeeded, or
the bridged configuration succeeded, or the full-bus sweep matched at a
non-zero address.  (A sweep match at bus address 0x00 is recorded with
address 0, which the final check treats as absent, so the flag stays
false there; the direct and bridged candidate lists contain no zero
address, so their hits always count.) -/
theorem C1_flag_iff_tier_found_nonzero (bus : Bus) :
    (IMU_begin bus).1 = true ↔
      ((begin_direct bus).1.isSome ∨
       (begin_bridged_guard bus = true ∧ (begin_bridged bus).1.isSome) ∨
       (begin_sweep_guard bus = true ∧ ∃ a, (begin_sweep bus).1 = some a ∧ a ≠ 0)) := by
  have h : (IMU_begin bus).1 = (begin_g6 bus).initialized := rfl
  rw [h, g6_init_iff bus]
  exact g5_bmm_spec bus

/-- C1 (counterexample to the claim as stated): in the environment
`busSweepZero` the full-bus sweep runs and finds the magnetometer
identity at bus address 0x00 — a magnetometer IS found by the sweep tier
— yet `IMU_begin` returns false. -/
theorem C1_counterexample :
    begin_sweep_guard busSweepZero = true ∧ (begin_sweep busSweepZero).1 = some 0 ∧
    (IMU_begin busSweepZero).1 = false := by decide

/-- C2 (amended): the system-usable flag returned by `IMU_begin` (and
reported by `IMU_isInitialized`) is true iff a magnetometer address was
recorded; finding only the primary chip does NOT set it. -/
theorem C2_flag_iff_magnetometer_recorded (bus : Bus) :
    ((IMU_begin bus).1 = true ↔ (IMU_begin bus).2.bmm150_addr ≠ 0) ∧
    IMU_isInitialized (IMU_begin bus).2 = (IMU_begin bus).1 := by
  constructor
  · have h : (IMU_begin bus).2.bmm150_addr = (begin_g5 bus).bmm150_addr := g6_bmm bus
    rw [show (IMU_begin bus).1 = (begin_g6 bus).initialized from rfl, h, g6_init_iff bus]
  · rfl

/-- C2 (counterexample to the claim as stated): with only the BMI160
present the primary chip is found at 0x68, but `IMU_begin` returns
false, contradicting "primary chip found makes the flag true". -/
theorem C2_counterexample :
    (IMU_begin busOnlyBMI).2.bmi160_addr = 0x68 ∧ (IMU_begin busOnlyBMI).1 = false := by decide

/-! ## Guard decompositions -/

theorem bridged_guard_iff (bus : Bus) :
    begin_bridged_guard bus = true ↔
      ((begin_g3 bus).bmi160_addr ≠ 0 ∧ (begin_g3 bus).bmm150_addr = 0) := by
  unfold begin_bridged_guard
  simp

theorem sweep_guard_iff (bus : Bus) :
    begin_sweep_guard bus = true ↔
      (begin_bridged_guard bus = true ∧ (begin_g4 bus).bmm150_addr = 0) := by
  unfold begin_sweep_guard
  simp

theorem tier1_isSome_iff (bus : Bus) :
    (begin_tier1 bus).1.isSome ↔ (begin_g1 bus).bmi160_addr ≠ 0 := by
  unfold begin_g1
  rcases h : (begin_tier1 bus).1 with _ | a
  · simp [h]
  · have ha := bmi160_candidates_ne_zero a (scanLoop_mem h)
    simp [h, ha]

/-! ## The BMI160 address survives every later stage -/

theorem g3_bmi (bus : Bus) : (begin_g3 bus).bmi160_addr = (begin_g1 bus).bmi160_addr := by
  rcases hd : (begin_direct bus).1 with _ | a
  · rw [g3_of_none hd]; exact (g2_fields bus).2.2.2
  · rw [g3_of_some hd]; exact (g2_fields bus).2.2.2

theorem g4_bmi (bus : Bus) : (begin_g4 bus).bmi160_addr = (begin_g3 bus).bmi160_addr := by
  rcases hg : begin_bridged_guard bus with _ | _
  · rw [g4_of_not_guard hg]
  · rcases hb : (begin_bridged bus).1 with _ | b
    · rw [g4_of_guard_none hg hb]
    · rw [g4_of_guard_some hg hb]

theorem g5_bmi (bus : Bus) : (begin_g5 bus).bmi160_addr = (begin_g4 bus).bmi160_addr := by
  rcases hg : begin_sweep_guard bus with _ | _
  · rw [g5_of_not_guard hg]
  · rcases hs : (begin_sweep bus).1 with _ | c
    · rw [g5_of_guard_none hg hs]
    · rw [g5_of_guard_some hg hs]

/-- Full case analysis of the discovery outcome: exactly how the final
(pre-flag) magnetometer address and mode were produced. -/
theorem g5_master (bus : Bus) :
    (∃ a, (begin_direct bus).1 = some a ∧ a ≠ 0 ∧
       (begin_g5 bus).bmm150_addr = a ∧ (begin_g5 bus).mag_mode = MagMode.PRIMARY) ∨
    (∃ b, begin_bridged_guard bus = true ∧ (begin_bridged bus).1 = some b ∧ b ≠ 0 ∧
       (begin_g5 bus).bmm150_addr = b ∧ (begin_g5 bus).mag_mode = MagMode.SECONDARY) ∨
    (∃ c, begin_sweep_guard bus = true ∧ (begin_sweep bus).1 = some c ∧
       (begin_g5 bus).bmm150_addr = c ∧ (begin_g5 bus).mag_mode = MagMode.PRIMARY) ∨
    ((begin_g5 bus).bmm150_addr = 0 ∧ (begin_g5 bus).mag_mode = MagMode.NONE) := by
  rcases hd : (begin_direct bus).1 with _ | a
  · have h3 : begin_g3 bus = begin_g2 bus := g3_of_none hd
    have h3b : (begin_g3 bus).bmm150_addr = 0 := by rw [h3]; exact (g2_fields bus).1
    have h3m : (begin_g3 bus).mag_mode = MagMode.NONE := by rw [h3]; exact (g2_fields bus).2.1
    rcases hg : begin_bridged_guard bus with _ | _
    · have hsg : begin_sweep_guard bus = false := by
        unfold begin_sweep_guard; rw [hg]; rfl
      right; right; right
      rw [g5_of_not_guard hsg, g4_of_not_guard hg]
      exact ⟨h3b, h3m⟩
    · rcases hb : (begin_bridged bus).1 with _ | b
      · have h4 := g4_of_guard_none hg hb
        have h4b : (begin_g4 bus).bmm150_addr = 0 := by rw [h4]; exact h3b
        have h4m : (begin_g4 bus).mag_mode = MagMode.NONE := by rw [h4]; exact h3m
        have hsg : begin_sweep_guard bus = true := by
          unfold begin_sweep_guard; rw [hg, h4b]; rfl
        rcases hs : (begin_sweep bus).1 with _ | c
        · right; right; right
          rw [g5_of_guard_none hsg hs]
          exact ⟨h4b, h4m⟩
        · right; right; left
          refine ⟨c, hsg, rfl, ?_, ?_⟩ <;> rw [g5_of_guard_some hsg hs]
      · have h4 := g4_of_guard_some hg hb
        have hbne : b ≠ 0 := bmm150_candidates_ne_zero b (scanLoop_mem hb)
        have h4b : (begin_g4 bus).bmm150_addr = b := by rw [h4]
        have hsg : begin_sweep_guard bus = false := by
          unfold begin_sweep_guard; rw [hg, h4b]; simp [hbne]
        right; left
        refine ⟨b, rfl, rfl, hbne, ?_, ?_⟩ <;> rw [g5_of_not_guard hsg, h4]
  · have hane : a ≠ 0 := bmm150_candidates_ne_zero a (scanLoop_mem hd)
    have h3 := g3_of_some hd
    have h3b : (begin_g3 bus).bmm150_addr = a := by rw [h3]
    have hg : begin_bridged_guard bus = false := by
      unfold begin_bridged_guard; rw [h3b]; simp [hane]
    have hsg : begin_sweep_guard bus = false := by
      unfold begin_sweep_guard; rw [hg]; rfl
    left
    refine ⟨a, rfl, hane, ?_, ?_⟩ <;> rw [g5_of_not_guard hsg, g4_of_not_guard hg, h3]

/-- C8: the full-bus sweep executes iff the primary chip was found AND
the direct magnetometer search failed AND the bridged search failed; and
whenever the sweep matches some address, the final state is Direct
(PRIMARY) mode at exactly that address. -/
theorem C8_sweep_characterization (bus : Bus) :
    (begin_sweep_guard bus = true ↔
      ((begin_tier1 bus).1.isSome ∧ (begin_direct bus).1 = none ∧
       (begin_bridged bus).1 = none)) ∧
    (∀ a, begin_sweep_guard bus = true → (begin_sweep bus).1 = some a →
      (IMU_begin bus).2.mag_mode = MagMode.PRIMARY ∧ (IMU_begin bus).2.bmm150_addr = a) := by
  constructor
  · constructor
    · intro hsg
      obtain ⟨hg, h4b⟩ := (sweep_guard_iff bus).mp hsg
      obtain ⟨hbmi, h3b⟩ := (bridged_guard_iff bus).mp hg
      have hd : (begin_direct bus).1 = none := by
        rcases hd : (begin_direct bus).1 with _ | a
        · rfl
        · have := g3_of_some hd
          rw [this] at h3b
          exact absurd h3b (bmm150_candidates_ne_zero a (scanLoop_mem hd))
      have hb : (begin_bridged bus).1 = none := by
        rcases hb : (begin_bridged bus).1 with _ | b
        · rfl
        · have := g4_of_guard_some hg hb
          rw [this] at h4b
          exact absurd h4b (bmm150_candidates_ne_zero b (scanLoop_mem hb))
      refine ⟨(tier1_isSome_iff bus).mpr ?_, hd, hb⟩
      rw [← g3_bmi bus]
      exact hbmi
    · rintro ⟨h1, hd, hb⟩
      have h3 := g3_of_none hd
      have h3b : (begin_g3 bus).bmm150_addr = 0 := by rw [h3]; exact (g2_fields bus).1
      have hbmi : (begin_g3 bus).bmi160_addr ≠ 0 := by
        rw [g3_bmi bus]
        exact (tier1_isSome_iff bus).mp h1
      have hg : begin_bridged_guard bus = true := (bridged_guard_iff bus).mpr ⟨hbmi, h3b⟩
      have h4 := g4_of_guard_none hg hb
      refine (sweep_guard_iff bus).mpr ⟨hg, ?_⟩
      rw [h4]
      exact h3b
  · intro a hsg hs
    have h5 := g5_of_guard_some hsg hs
    constructor
    · rw [show (IMU_begin bus).2 = begin_g6 bus from rfl, g6_mode bus, h5]
    · rw [show (IMU_begin bus).2 = begin_g6 bus from rfl, g6_bmm bus, h5]

/-- C8 witness: in `busSweepHit` the primary chip is found, both
magnetometer searches fail, the sweep runs and matches at 0x25, and the
final state is Direct mode at 0x25. -/
theorem C8_witness :
    (begin_tier1 busSweepHit).1.isSome ∧ (begin_direct busSweepHit).1 = none ∧
    (begin_bridged busSweepHit).1 = none ∧ begin_sweep_guard busSweepHit = true ∧
    (IMU_begin busSweepHit).2.mag_mode = MagMode.PRIMARY ∧
    (IMU_begin busSweepHit).2.bmm150_addr = 0x25 := by
  have h := C8_sweep_characterization busSweepHit
  have hsg : begin_sweep_guard busSweepHit = true := by decide
  have hs : (begin_sweep busSweepHit).1 = some 0x25 := by decide
  obtain ⟨hiff, hmatch⟩ := h
  obtain ⟨ht, hd, hb⟩ := hiff.mp hsg
  obtain ⟨hm1, hm2⟩ := hmatch 0x25 hsg hs
  exact ⟨ht, hd, hb, hsg, hm1, hm2⟩

/-- C10 (amended): after `IMU_begin`, SECONDARY mode implies the BMI160
was recorded; the usable flag is equivalent to a recorded magnetometer
address; a recorded address implies a non-NONE mode; and, provided the
full-bus sweep did not match at bus address 0x00, the mode is non-NONE
exactly when an address was recorded.  Moreover the public operations
other than `begin` leave `bmi160_addr`, `bmm150_addr`, `mag_mode` and
`initialized` unchanged (`IMU_readData` assigns no global at all). -/
theorem C10_topology_invariants (bus : Bus) :
    ((IMU_begin bus).2.mag_mode = MagMode.SECONDARY → (IMU_begin bus).2.bmi160_addr ≠ 0) ∧
    ((IMU_begin bus).2.initialized = true ↔ (IMU_begin bus).2.bmm150_addr ≠ 0) ∧
    ((IMU_begin bus).2.bmm150_addr ≠ 0 → (IMU_begin bus).2.mag_mode ≠ MagMode.NONE) ∧
    ((begin_sweep bus).1 ≠ some 0 →
      ((IMU_begin bus).2.mag_mode ≠ MagMode.NONE ↔ (IMU_begin bus).2.bmm150_addr ≠ 0)) ∧
    (∀ bus2 t g r,
      (IMU_setAccelRange bus2 t g r).1.bmi160_addr = g.bmi160_addr ∧
      (IMU_setAccelRange bus2 t g r).1.bmm150_addr = g.bmm150_addr ∧
      (IMU_setAccelRange bus2 t g r).1.mag_mode = g.mag_mode ∧
      (IMU_setAccelRange bus2 t g r).1.initialized = g.initialized) ∧
    (∀ bus2 t g r,
      (IMU_setGyroRange bus2 t g r).1.bmi160_addr = g.bmi160_addr ∧
      (IMU_setGyroRange bus2 t g r).1.bmm150_addr = g.bmm150_addr ∧
      (IMU_setGyroRange bus2 t g r).1.mag_mode = g.mag_mode ∧
      (IMU_setGyroRange bus2 t g r).1.initialized = g.initialized) ∧
    (∀ bus2 t g, (IMU_readData bus2 t g).2.1 = g) ∧
    (∀ bus2 t g now freq out,
      (IMU_readDataWithFrequency bus2 t g now freq out).1.bmi160_addr = g.bmi160_addr ∧
      (IMU_readDataWithFrequency bus2 t g now freq out).1.bmm150_addr = g.bmm150_addr ∧
      (IMU_readDataWithFrequency bus2 t g now freq out).1.mag_mode = g.mag_mode ∧
      (IMU_readDataWithFrequency bus2 t g now freq out).1.initialized = g.initialized) := by
  have hbeq : (IMU_begin bus).2 = begin_g6 bus := rfl
  have hmode : (IMU_begin bus).2.mag_mode = (begin_g5 bus).mag_mode := by
    rw [hbeq, g6_mode bus]
  have hbmm : (IMU_begin bus).2.bmm150_addr = (begin_g5 bus).bmm150_addr := by
    rw [hbeq, g6_bmm bus]
  have hbmi : (IMU_begin bus).2.bmi160_addr = (begin_g5 bus).bmi160_addr := by
    rw [hbeq, g6_bmi bus]
  refine ⟨?_, ?_, ?_, ?_, ?_, ?_, ?_, ?_⟩
  · intro hsec
    rw [hmode] at hsec
    rw [hbmi]
    rcases g5_master bus with ⟨a, _, _, _, hm⟩ | ⟨b, hg, _, _, _, hm⟩ | ⟨c, _, _, _, hm⟩ | ⟨_, hm⟩ <;>
      rw [hm] at hsec
    · exact absurd hsec (by decide)
    · obtain ⟨hbmi3, _⟩ := (bridged_guard_iff bus).mp hg
      rw [g5_bmi bus, g4_bmi bus]
      exact hbmi3
    · exact absurd hsec (by decide)
    · exact absurd hsec (by decide)
  · rw [hbmm, hbeq]
    exact g6_init_iff bus
  · intro hne
    rw [hbmm] at hne
    rw [hmode]
    rcases g5_master bus with ⟨a, _, _, hb5, hm⟩ | ⟨b, _, _, _, hb5, hm⟩ | ⟨c, _, _, hb5, hm⟩ | ⟨hb5, hm⟩ <;>
      rw [hm]
    · decide
    · decide
    · decide
    · exact absurd (hb5 : (begin_g5 bus).bmm150_addr = 0) hne
  · intro hsweep
    rw [hmode, hbmm]
    rcases g5_master bus with ⟨a, _, hane, hb5, hm⟩ | ⟨b, _, _, hbne, hb5, hm⟩ |
      ⟨c, _, hs, hb5, hm⟩ | ⟨hb5, hm⟩ <;> rw [hm, hb5]
    · simp [hane]
    · simp [hbne]
    · have hcne : c ≠ 0 := by
        intro hc0
        exact hsweep (hc0 ▸ hs)
      simp [hcne]
    · simp
  · intro bus2 t g r
    unfold IMU_setAccelRange
    split
    · obtain ⟨h1, h2, h3, h4, _, _⟩ :=
        ucf_fields { g with config := { g.config with acc_range := r } }
      exact ⟨h1, h2, h3, h4⟩
    · exact ⟨rfl, rfl, rfl, rfl⟩
  · intro bus2 t g r
    unfold IMU_setGyroRange
    split
    · obtain ⟨h1, h2, h3, h4, _, _⟩ :=
        ucf_fields { g with config := { g.config with gyr_range := r } }
      exact ⟨h1, h2, h3, h4⟩
    · exact ⟨rfl, rfl, rfl, rfl⟩
  · intro bus2 t g
    rfl
  · intro bus2 t g now freq out
    refine ⟨?_, ?_, ?_, ?_⟩ <;>
    · unfold IMU_readDataWithFrequency
      dsimp only
      split
      · split <;> rfl
      · rfl

/-- C10 counterexample (to the claim as stated): in `busSweepZero` the
sweep matches at bus address 0x00, leaving `mag_mode = PRIMARY` while
`bmm150_addr = 0` — the mutual-consistency biconditional fails. -/
theorem C10_counterexample :
    (IMU_begin busSweepZero).2.mag_mode ≠ MagMode.NONE ∧
    (IMU_begin busSweepZero).2.bmm150_addr = 0 := by decide

/-- C10 witness: the amended invariant applied to the only-BMI160
environment, whose sweep matches nowhere, plus a frame instance. -/
theorem C10_witness :
    ((IMU_begin busOnlyBMI).2.mag_mode ≠ MagMode.NONE ↔
      (IMU_begin busOnlyBMI).2.bmm150_addr ≠ 0) ∧
    (IMU_setAccelRange busNone 0 initialGlobals 0x03).1.mag_mode = initialGlobals.mag_mode := by
  have h := C10_topology_invariants busOnlyBMI
  refine ⟨h.2.2.2.1 (by decide), ?_⟩
  exact ((h.2.2.2.2.1) busNone 0 initialGlobals 0x03).2.2.1

/-! ## Conversion-factor lemmas -/

theorem apply_acc_lut_of_valid {g : Globals} (h : validAccCode g.config.acc_range) :
    (apply_acc_lut g).ACC_LSB = accLUT g.config.acc_range := by
  unfold validAccCode at h
  simp only [List.mem_cons, List.not_mem_nil, or_false] at h
  unfold apply_acc_lut accLUT
  rcases h with h | h | h | h <;> rw [h] <;> rfl

theorem apply_gyr_lut_of_valid {g : Globals} (h : validGyrCode g.config.gyr_range) :
    (apply_gyr_lut g).GYR_LSB = gyrLUT g.config.gyr_range := by
  unfold validGyrCode at h
  simp only [List.mem_cons, List.not_mem_nil, or_false] at h
  unfold apply_gyr_lut gyrLUT
  rcases h with h | h | h | h | h <;> rw [h] <;> rfl

theorem ucf_ACC_of_valid {g : Globals} (h : validAccCode g.config.acc_range) :
    (update_conversion_factors g).ACC_LSB = accLUT g.config.acc_range := by
  unfold update_conversion_factors
  rw [(apply_gyr_lut_fields (apply_acc_lut g)).2.2.2.2.2.2]
  exact apply_acc_lut_of_valid h

theorem ucf_GYR_of_valid {g : Globals} (h : validGyrCode g.config.gyr_range) :
    (update_conversion_factors g).GYR_LSB = gyrLUT g.config.gyr_range := by
  unfold update_conversion_factors
  have hc : (apply_acc_lut g).config = g.config := (apply_acc_lut_fields g).2.2.2.2.1
  have h2 : validGyrCode (apply_acc_lut g).config.gyr_range := by rw [hc]; exact h
  rw [apply_gyr_lut_of_valid h2, hc]

theorem setAccelRange_of_present {bus : Bus} {t : Nat} {g : Globals} {a : Nat}
    (h : g.bmi160_addr ≠ 0) :
    (IMU_setAccelRange bus t g a).1 =
      update_conversion_factors { g with config := { g.config with acc_range := a } } := by
  unfold IMU_setAccelRange
  rw [if_pos h]

theorem setGyroRange_of_present {bus : Bus} {t : Nat} {g : Globals} {c : Nat}
    (h : g.bmi160_addr ≠ 0) :
    (IMU_setGyroRange bus t g c).1 =
      update_conversion_factors { g with config := { g.config with gyr_range := c } } := by
  unfold IMU_setGyroRange
  rw [if_pos h]

/-- C9: with the primary chip present and valid range codes, the setters
leave the conversion factors at exactly the table values of the
currently configured codes (for `setAccelRange`, the gyroscope factor is
recomputed from the unchanged gyroscope code); after the pair of setter
calls both factors match both codes; and the reading operations change
neither codes nor factors. -/
theorem C9_conversion_factors (bus : Bus) (t t2 : Nat) (g : Globals) (a c : Nat)
    (hbmi : g.bmi160_addr ≠ 0) (ha : validAccCode a) (hc : validGyrCode c) :
    ((IMU_setAccelRange bus t g a).1.config.acc_range = a ∧
     (IMU_setAccelRange bus t g a).1.ACC_LSB = accLUT a ∧
     (validGyrCode g.config.gyr_range →
       (IMU_setAccelRange bus t g a).1.GYR_LSB = gyrLUT g.config.gyr_range)) ∧
    ((IMU_setGyroRange bus t2 (IMU_setAccelRange bus t g a).1 c).1.config.acc_range = a ∧
     (IMU_setGyroRange bus t2 (IMU_setAccelRange bus t g a).1 c).1.config.gyr_range = c ∧
     (IMU_setGyroRange bus t2 (IMU_setAccelRange bus t g a).1 c).1.ACC_LSB = accLUT a ∧
     (IMU_setGyroRange bus t2 (IMU_setAccelRange bus t g a).1 c).1.GYR_LSB = gyrLUT c) ∧
    (∀ bus2 t3 now freq out,
      (IMU_readDataWithFrequency bus2 t3 g now freq out).1.config = g.config ∧
      (IMU_readDataWithFrequency bus2 t3 g now freq out).1.ACC_LSB = g.ACC_LSB ∧
      (IMU_readDataWithFrequency bus2 t3 g now freq out).1.GYR_LSB = g.GYR_LSB) ∧
    (∀ bus2 t3, (IMU_readData bus2 t3 g).2.1 = g) := by
  have h1 := @setAccelRange_of_present bus t g a hbmi
  have hg1cfg : (IMU_setAccelRange bus t g a).1.config =
      { g.config with acc_range := a } := by
    rw [h1]
    exact (ucf_fields _).2.2.2.2.1
  have hg1bmi : (IMU_setAccelRange bus t g a).1.bmi160_addr ≠ 0 := by
    rw [h1, (ucf_fields _).1]
    exact hbmi
  have h2 := @setGyroRange_of_present bus t2 (IMU_setAccelRange bus t g a).1 c hg1bmi
  have hg2cfg : (IMU_setGyroRange bus t2 (IMU_setAccelRange bus t g a).1 c).1.config =
      { (IMU_setAccelRange bus t g a).1.config with gyr_range := c } := by
    rw [h2]
    exact (ucf_fields _).2.2.2.2.1
  refine ⟨⟨?_, ?_, ?_⟩, ⟨?_, ?_, ?_, ?_⟩, ?_, ?_⟩
  · rw [hg1cfg]
  · rw [h1]
    have hva : validAccCode ({ g with config := { g.config with acc_range := a } } :
        Globals).config.acc_range := ha
    rw [ucf_ACC_of_valid hva]
  · intro hv
    rw [h1]
    have hvg : validGyrCode ({ g with config := { g.config with acc_range := a } } :
        Globals).config.gyr_range := hv
    rw [ucf_GYR_of_valid hvg]
  · rw [hg2cfg, hg1cfg]
  · rw [hg2cfg]
  · rw [h2]
    have hva : validAccCode ({ (IMU_setAccelRange bus t g a).1 with
        config := { (IMU_setAccelRange bus t g a).1.config with gyr_range := c } } :
        Globals).config.acc_range := by
      show validAccCode (IMU_setAccelRange bus t g a).1.config.acc_range
      rw [hg1cfg]
      exact ha
    rw [ucf_ACC_of_valid hva]
    show accLUT (IMU_setAccelRange bus t g a).1.config.acc_range = accLUT a
    rw [hg1cfg]
  · rw [h2]
    have hvc : validGyrCode ({ (IMU_setAccelRange bus t g a).1 with
        config := { (IMU_setAccelRange bus t g a).1.config with gyr_range := c } } :
        Globals).config.gyr_range := hc
    rw [ucf_GYR_of_valid hvc]
  · intro bus2 t3 now freq out
    refine ⟨?_, ?_, ?_⟩ <;>
    · unfold IMU_readDataWithFrequency
      dsimp only
      split
      · split <;> rfl
      · rfl
  · intro bus2 t3
    rfl

/-- C9 witness: applying the theorem at a concrete state and codes. -/
theorem C9_witness :
    (IMU_setAccelRange busNone 0 gOnlyBMI 0x08).1.ACC_LSB = accLUT 0x08 ∧
    (IMU_setAccelRange busNone 0 gOnlyBMI 0x08).1.GYR_LSB =
      gyrLUT gOnlyBMI.config.gyr_range ∧
    (IMU_setGyroRange busNone 0 (IMU_setAccelRange busNone 0 gOnlyBMI 0x08).1 0x02).1.GYR_LSB =
      gyrLUT 0x02 := by
  have h := C9_conversion_factors busNone 0 0 gOnlyBMI 0x08 0x02 (by decide) (by decide)
    (by decide)
  exact ⟨h.1.2.1, h.1.2.2 (by decide), h.2.1.2.2.2⟩

/-! ## Rate limiter claims -/

/-- C5: on a call inside the accumulation window, or on a flush call
with zero accumulated samples, the caller's output buffers come back
completely untouched; the average-and-write path (the only division by
the sample count) runs only under the `samples > 0` guard. -/
theorem C5_output_unchanged (bus : Bus) (t : Nat) (g : Globals) (now : Nat) (freq : Rat)
    (out : RawSample)
    (h : now - g.accum.last_time < rdwf_interval g.mag_mode freq ∨ g.accum.samples = 0) :
    (IMU_readDataWithFrequency bus t g now freq out).2.1 = out := by
  unfold IMU_readDataWithFrequency
  dsimp only
  split
  · split
    · rcases h with h | h <;> omega
    · rfl
  · rfl

/-- The clamped 50 Hz interval with no magnetometer is 20 ms. -/
theorem rdwf_interval_none_50 : rdwf_interval MagMode.NONE 50 = 20 := by
  unfold rdwf_interval
  rw [show rdwf_frequency MagMode.NONE 50 = 50 from rfl]
  rw [show (1000 : Rat) / 50 = 20 by norm_num]
  rfl

/-- C5 witness: a call one millisecond into a fresh 20 ms window leaves
the output untouched. -/
theorem C5_witness :
    (IMU_readDataWithFrequency busConstNeg 0 gOnlyBMI 1 50 zeroSample).2.1 = zeroSample :=
  C5_output_unchanged busConstNeg 0 gOnlyBMI 1 50 zeroSample
    (Or.inl (by
      rw [show rdwf_interval gOnlyBMI.mag_mode 50 = 20 from rdwf_interval_none_50]
      decide))

/-- C4 (amended): each call checks the elapsed interval FIRST: on a
flush call (interval elapsed) it performs no `IMU_readData` at all,
while on an in-window call it performs exactly one `IMU_readData` and
folds that sample into the accumulator. -/
theorem C4_read_exactly_on_nonflush (bus : Bus) (t : Nat) (g : Globals) (now : Nat)
    (freq : Rat) (out : RawSample) :
    ((IMU_readDataWithFrequency bus t g now freq out).2.2.1 = true ↔
      now - g.accum.last_time < rdwf_interval g.mag_mode freq) ∧
    (now - g.accum.last_time < rdwf_interval g.mag_mode freq →
      (IMU_readDataWithFrequency bus t g now freq out).1.accum =
        accumulateSample g.accum (IMU_readData bus (rdwf_conf_tick bus t g) g).1) := by
  constructor
  · unfold IMU_readDataWithFrequency
    dsimp only
    split
    · split <;> simp <;> omega
    · simp
      omega
  · intro h
    unfold IMU_readDataWithFrequency
    dsimp only
    rw [if_neg (by omega)]

/-- C4 counterexample (to the claim as stated): on a call on which the
interval has elapsed the code performs NO `IMU_readData` and folds
nothing — the read flag is false and the accumulator gains no sample. -/
theorem C4_counterexample :
    25 - gOnlyBMI.accum.last_time ≥ rdwf_interval gOnlyBMI.mag_mode 50 ∧
    (IMU_readDataWithFrequency busConstNeg 0 gOnlyBMI 25 50 zeroSample).2.2.1 = false ∧
    (IMU_readDataWithFrequency busConstNeg 0 gOnlyBMI 25 50 zeroSample).1.accum.samples = 0 := by
  have hi : rdwf_interval gOnlyBMI.mag_mode 50 = 20 := rdwf_interval_none_50
  refine ⟨by rw [hi]; decide, ?_, ?_⟩ <;>
  · unfold IMU_readDataWithFrequency
    dsimp only
    rw [hi, if_pos (by decide), if_neg (by decide)]
    try rfl

/-- C4 witness: an in-window call reads once and folds the sample. -/
theorem C4_witness :
    (IMU_readDataWithFrequency busConstNeg 0 gOnlyBMI 1 50 zeroSample).2.2.1 = true ∧
    (IMU_readDataWithFrequency busConstNeg 0 gOnlyBMI 1 50 zeroSample).1.accum =
      accumulateSample gOnlyBMI.accum
        (IMU_readData busConstNeg (rdwf_conf_tick busConstNeg 0 gOnlyBMI) gOnlyBMI).1 := by
  have h := C4_read_exactly_on_nonflush busConstNeg 0 gOnlyBMI 1 50 zeroSample
  have hlt : 1 - gOnlyBMI.accum.last_time < rdwf_interval gOnlyBMI.mag_mode 50 := by
    rw [show rdwf_interval gOnlyBMI.mag_mode 50 = 20 from rdwf_interval_none_50]
    decide
  exact ⟨h.1.mpr hlt, h.2 hlt⟩

/-! Concrete evaluation of a -8-per-axis accumulation run at 50 Hz. -/

theorem constNeg_step1 :
    (IMU_readDataWithFrequency busConstNeg 0 gOnlyBMI 1 50 zeroSample).1 =
      { gOnlyBMI with accum := ⟨-8, -8, -8, -8, -8, -8, 0, 0, 0, 0, 1, 0⟩ } := by
  have hi : rdwf_interval gOnlyBMI.mag_mode 50 = 20 := rdwf_interval_none_50
  unfold IMU_readDataWithFrequency
  dsimp only
  rw [hi, if_neg (by decide)]
  try rfl

theorem constNeg_step2 :
    (IMU_readDataWithFrequency busConstNeg 0
        ({ gOnlyBMI with accum := ⟨-8, -8, -8, -8, -8, -8, 0, 0, 0, 0, 1, 0⟩ }) 2 50
        zeroSample).1 =
      { gOnlyBMI with accum := ⟨-16, -16, -16, -16, -16, -16, 0, 0, 0, 0, 2, 0⟩ } := by
  have hi : rdwf_interval
      ({ gOnlyBMI with accum := ⟨-8, -8, -8, -8, -8, -8, 0, 0, 0, 0, 1, 0⟩ } :
        Globals).mag_mode 50 = 20 := rdwf_interval_none_50
  unfold IMU_readDataWithFrequency
  dsimp only
  rw [hi, if_neg (by decide)]
  try rfl

theorem constNeg_step3 :
    (IMU_readDataWithFrequency busConstNeg 0
        ({ gOnlyBMI with accum := ⟨-16, -16, -16, -16, -16, -16, 0, 0, 0, 0, 2, 0⟩ }) 3 50
        zeroSample).1 =
      { gOnlyBMI with accum := ⟨-24, -24, -24, -24, -24, -24, 0, 0, 0, 0, 3, 0⟩ } := by
  have hi : rdwf_interval
      ({ gOnlyBMI with accum := ⟨-16, -16, -16, -16, -16, -16, 0, 0, 0, 0, 2, 0⟩ } :
        Globals).mag_mode 50 = 20 := rdwf_interval_none_50
  unfold IMU_readDataWithFrequency
  dsimp only
  rw [hi, if_neg (by decide)]
  try rfl

theorem constNeg_step4_flush :
    (IMU_readDataWithFrequency busConstNeg 0
        ({ gOnlyBMI with accum := ⟨-24, -24, -24, -24, -24, -24, 0, 0, 0, 0, 3, 0⟩ }) 25 50
        zeroSample).2.1.ax = 21837 ∧
    (IMU_readDataWithFrequency busConstNeg 0
        ({ gOnlyBMI with accum := ⟨-24, -24, -24, -24, -24, -24, 0, 0, 0, 0, 3, 0⟩ }) 25 50
        zeroSample).1.accum = { emptyAccum with last_time := 25 } := by
  have hi : rdwf_interval
      ({ gOnlyBMI with accum := ⟨-24, -24, -24, -24, -24, -24, 0, 0, 0, 0, 3, 0⟩ } :
        Globals).mag_mode 50 = 20 := rdwf_interval_none_50
  constructor <;>
  · unfold IMU_readDataWithFrequency
    dsimp only
    rw [hi, if_pos (by decide), if_pos (by decide)]
    try decide

/-- C3 (code-bug evidence): three samples with every axis -8 accumulate
to sums of -24 with count 3 inside one 20 ms window; the flush then
computes `int32_t sum / uint32_t samples`, whose usual arithmetic
conversions turn -24 into its unsigned 32-bit pattern, so the caller
receives 21837 where the integer-truncated mean of the three samples is
-8.  The accumulator itself is correctly cleared with the timestamp
updated. -/
theorem C3_flush_mean_bug :
    (IMU_readDataWithFrequency busConstNeg 0
        (IMU_readDataWithFrequency busConstNeg 0
          (IMU_readDataWithFrequency busConstNeg 0
            (IMU_readDataWithFrequency busConstNeg 0 gOnlyBMI 1 50 zeroSample).1
            2 50 zeroSample).1
          3 50 zeroSample).1
        25 50 zeroSample).2.1.ax = 21837 ∧
    (IMU_readDataWithFrequency busConstNeg 0
        (IMU_readDataWithFrequency busConstNeg 0
          (IMU_readDataWithFrequency busConstNeg 0 gOnlyBMI 1 50 zeroSample).1
          2 50 zeroSample).1
        3 50 zeroSample).1.accum.acc0 = -24 ∧
    (IMU_readDataWithFrequency busConstNeg 0
        (IMU_readDataWithFrequency busConstNeg 0
          (IMU_readDataWithFrequency busConstNeg 0 gOnlyBMI 1 50 zeroSample).1
          2 50 zeroSample).1
        3 50 zeroSample).1.accum.samples = 3 ∧
    Int.tdiv (-24) 3 = -8 ∧
    (IMU_readDataWithFrequency busConstNeg 0
        (IMU_readDataWithFrequency busConstNeg 0
          (IMU_readDataWithFrequency busConstNeg 0
            (IMU_readDataWithFrequency busConstNeg 0 gOnlyBMI 1 50 zeroSample).1
            2 50 zeroSample).1
          3 50 zeroSample).1
        25 50 zeroSample).1.accum = { emptyAccum with last_time := 25 } := by
  refine ⟨?_, ?_, ?_, by decide, ?_⟩
  · rw [constNeg_step1, constNeg_step2, constNeg_step3]
    exact constNeg_step4_flush.1
  · rw [constNeg_step1, constNeg_step2, constNeg_step3]
  · rw [constNeg_step1, constNeg_step2, constNeg_step3]
  · rw [constNeg_step1, constNeg_step2, constNeg_step3]
    exact constNeg_step4_flush.2

/-! ## Decode claims -/

theorem getD_lt_of_bytes {buf : List Nat} (hbytes : ∀ x ∈ buf, x < 256) {i : Nat}
    (hi : i < buf.length) : buf.getD i 0 < 256 := by
  rw [List.getD_eq_getElem?_getD, List.getElem?_eq_getElem hi, Option.getD_some]
  exact hbytes _ (List.getElem_mem hi)

/-- C6: in Direct (PRIMARY) mode, a successful forced-mode read decodes
the 8-byte window as: X and Y the little-endian signed words at offsets
0-1 and 2-3 arithmetically shifted right by 3, Z the word at offsets 4-5
shifted right by 1, and the auxiliary RHALL the unshifted word at
offsets 6-7; and the specification test vector
0x10 00 20 00 08 00 01 00 decodes to X=2, Y=4, Z=4, Aux=1. -/
theorem C6_forced_decode (bus : Bus) (t bmm : Nat) (buf : List Nat)
    (hw : bus.write t bmm BMM150_OPMODE BMM150_FORCED_MODE = true)
    (hr : bus.read (t + 1) bmm BMM150_DATA_X 8 = some buf)
    (hbytes : ∀ x ∈ buf, x < 256) (hlen : buf.length = 8) :
    ((read_bmm150_forced bus t bmm).1 =
      (asr (le16 (buf.getD 0 0) (buf.getD 1 0)) 3,
       asr (le16 (buf.getD 2 0) (buf.getD 3 0)) 3,
       asr (le16 (buf.getD 4 0) (buf.getD 5 0)) 1,
       le16 (buf.getD 6 0) (buf.getD 7 0))) ∧
    (read_bmm150_forced busForcedVector 0 0x10).1 = (2, 4, 4, 1) := by
  have hb : ∀ i, i < 8 → buf.getD i 0 < 256 := fun i hi =>
    getD_lt_of_bytes hbytes (by omega)
  constructor
  · unfold read_bmm150_forced
    rw [show i2c_safe_write bus t bmm BMM150_OPMODE BMM150_FORCED_MODE = (true, t + 1) from
      by unfold i2c_safe_write; rw [hw]]
    dsimp only
    rw [if_neg (by decide)]
    rw [show i2c_safe_read bus (t + 1) bmm BMM150_DATA_X 8 = (some buf, t + 2) from
      by unfold i2c_safe_read; rw [hr]]
    dsimp only
    simp only [Prod.mk.injEq]
    refine ⟨?_, ?_, ?_, ?_⟩
    · rw [castWord_eq_le16 (hb 0 (by omega)) (hb 1 (by omega))]
      exact asInt16_asr_of_range 3 (by omega) (le16_range (hb 0 (by omega)) (hb 1 (by omega))).1
        (le16_range (hb 0 (by omega)) (hb 1 (by omega))).2
    · rw [castWord_eq_le16 (hb 2 (by omega)) (hb 3 (by omega))]
      exact asInt16_asr_of_range 3 (by omega) (le16_range (hb 2 (by omega)) (hb 3 (by omega))).1
        (le16_range (hb 2 (by omega)) (hb 3 (by omega))).2
    · rw [castWord_eq_le16 (hb 4 (by omega)) (hb 5 (by omega))]
      exact asInt16_asr_of_range 1 (by omega) (le16_range (hb 4 (by omega)) (hb 5 (by omega))).1
        (le16_range (hb 4 (by omega)) (hb 5 (by omega))).2
    · exact castWord_eq_le16 (hb 6 (by omega)) (hb 7 (by omega))
  · decide

theorem decode20_accgyr (mode : MagMode) (buf : List Nat) (hb : ∀ x ∈ buf, x < 256)
    (hlen : buf.length = 20) :
    (decode20 mode buf).ax = le16 (buf.getD 14 0) (buf.getD 15 0) ∧
    (decode20 mode buf).ay = le16 (buf.getD 16 0) (buf.getD 17 0) ∧
    (decode20 mode buf).az = le16 (buf.getD 18 0) (buf.getD 19 0) ∧
    (decode20 mode buf).gx = le16 (buf.getD 8 0) (buf.getD 9 0) ∧
    (decode20 mode buf).gy = le16 (buf.getD 10 0) (buf.getD 11 0) ∧
    (decode20 mode buf).gz = le16 (buf.getD 12 0) (buf.getD 13 0) := by
  unfold decode20
  dsimp only
  refine ⟨?_, ?_, ?_, ?_, ?_, ?_⟩ <;>
    exact castHiOrLo_eq_le16 (getD_lt_of_bytes hb (by omega)) (getD_lt_of_bytes hb (by omega))

/-- C7: every successfully burst-read 20-byte frame of `IMU_readData`
decodes each axis as the little-endian signed word at its fixed byte
offset (accelerometer X/Y/Z at 14-15/16-17/18-19, gyroscope X/Y/Z at
8-9/10-11/12-13); the magnetometer words at offsets 0-7 are used only in
SECONDARY mode — in NONE mode those outputs stay at the zero reset, and
in PRIMARY mode they come from the direct forced-mode read, independent
of the burst buffer. -/
theorem C7_burst_decode (bus : Bus) (t : Nat) (g : Globals) (buf : List Nat)
    (hbmi : g.bmi160_addr ≠ 0)
    (hr : bus.read (readData_burst_tick bus t g) g.bmi160_addr BMI160_DATA_0 20 = some buf)
    (hbytes : ∀ x ∈ buf, x < 256) (hlen : buf.length = 20) :
    ((IMU_readData bus t g).1.ax = le16 (buf.getD 14 0) (buf.getD 15 0) ∧
     (IMU_readData bus t g).1.ay = le16 (buf.getD 16 0) (buf.getD 17 0) ∧
     (IMU_readData bus t g).1.az = le16 (buf.getD 18 0) (buf.getD 19 0) ∧
     (IMU_readData bus t g).1.gx = le16 (buf.getD 8 0) (buf.getD 9 0) ∧
     (IMU_readData bus t g).1.gy = le16 (buf.getD 10 0) (buf.getD 11 0) ∧
     (IMU_readData bus t g).1.gz = le16 (buf.getD 12 0) (buf.getD 13 0)) ∧
    (g.mag_mode = MagMode.SECONDARY →
      (IMU_readData bus t g).1.mx = le16 (buf.getD 0 0) (buf.getD 1 0) ∧
      (IMU_readData bus t g).1.my = le16 (buf.getD 2 0) (buf.getD 3 0) ∧
      (IMU_readData bus t g).1.mz = le16 (buf.getD 4 0) (buf.getD 5 0) ∧
      (IMU_readData bus t g).1.rh = le16 (buf.getD 6 0) (buf.getD 7 0)) ∧
    (g.mag_mode = MagMode.NONE →
      (IMU_readData bus t g).1.mx = 0 ∧ (IMU_readData bus t g).1.my = 0 ∧
      (IMU_readData bus t g).1.mz = 0 ∧ (IMU_readData bus t g).1.rh = 0) ∧
    (g.mag_mode = MagMode.PRIMARY →
      ((IMU_readData bus t g).1.mx, (IMU_readData bus t g).1.my, (IMU_readData bus t g).1.mz,
        (IMU_readData bus t g).1.rh) =
        (read_bmm150_forced bus (readData_burst_tick bus t g + 1) g.bmm150_addr).1) := by
  have hval : (IMU_readData bus t g).1 =
      (if g.mag_mode = MagMode.PRIMARY then
        { decode20 g.mag_mode buf with
          mx := (read_bmm150_forced bus (readData_burst_tick bus t g + 1) g.bmm150_addr).1.1,
          my := (read_bmm150_forced bus (readData_burst_tick bus t g + 1) g.bmm150_addr).1.2.1,
          mz := (read_bmm150_forced bus (readData_burst_tick bus t g + 1) g.bmm150_addr).1.2.2.1,
          rh := (read_bmm150_forced bus (readData_burst_tick bus t g + 1) g.bmm150_addr).1.2.2.2 }
      else decode20 g.mag_mode buf) := by
    unfold IMU_readData
    rw [if_pos hbmi]
    rw [show i2c_safe_read bus (readData_burst_tick bus t g) g.bmi160_addr BMI160_DATA_0 20
        = (some buf, readData_burst_tick bus t g + 1) from
      by unfold i2c_safe_read; rw [hr]]
    dsimp only
    split <;> rfl
  rcases hm : g.mag_mode with _ | _ | _
  · rw [hm, if_neg (by decide)] at hval
    refine ⟨?_, ?_, ?_, ?_⟩
    · rw [hval]
      exact decode20_accgyr MagMode.NONE buf hbytes hlen
    · intro h
      exact absurd h (by decide)
    · intro _
      rw [hval]
      unfold decode20
      dsimp only
      rw [if_neg (by decide), if_neg (by decide), if_neg (by decide), if_neg (by decide)]
      exact ⟨rfl, rfl, rfl, rfl⟩
    · intro h
      exact absurd h (by decide)
  · rw [hm, if_pos rfl] at hval
    refine ⟨?_, ?_, ?_, ?_⟩
    · rw [hval]
      exact decode20_accgyr MagMode.PRIMARY buf hbytes hlen
    · intro h
      exact absurd h (by decide)
    · intro h
      exact absurd h (by decide)
    · intro _
      rw [hval]
  · rw [hm, if_neg (by decide)] at hval
    refine ⟨?_, ?_, ?_, ?_⟩
    · rw [hval]
      exact decode20_accgyr MagMode.SECONDARY buf hbytes hlen
    · intro _
      rw [hval]
      unfold decode20
      dsimp only
      rw [if_pos rfl, if_pos rfl, if_pos rfl, if_pos rfl]
      refine ⟨?_, ?_, ?_, ?_⟩ <;>
        exact castHiOrLo_eq_le16 (getD_lt_of_bytes hbytes (by omega))
          (getD_lt_of_bytes hbytes (by omega))
    · intro h
      exact absurd h (by decide)
    · intro h
      exact absurd h (by decide)

/-- C6 witness: the decode theorem applied to the specification's test
vector environment. -/
theorem C6_witness :
    (read_bmm150_forced busForcedVector 0 0x10).1 =
      (asr (le16 0x10 0x00) 3, asr (le16 0x20 0x00) 3, asr (le16 0x08 0x00) 1,
       le16 0x01 0x00) := by
  have h := C6_forced_decode busForcedVector 0 0x10
    [0x10, 0x00, 0x20, 0x00, 0x08, 0x00, 0x01, 0x00]
    (by decide) (by decide) (by decide) (by decide)
  exact h.1

/-- C7 witness: the burst-decode theorem applied to a concrete frame in
NONE mode. -/
theorem C7_witness :
    (IMU_readData busBurstVector 0 gOnlyBMI).1.ax = le16 15 16 ∧
    (IMU_readData busBurstVector 0 gOnlyBMI).1.gx = le16 9 10 ∧
    (IMU_readData busBurstVector 0 gOnlyBMI).1.mx = 0 := by
  have h := C7_burst_decode busBurstVector 0 gOnlyBMI burstVector (by decide) (by decide)
    (by decide) (by decide)
  exact ⟨h.1.1, h.1.2.2.2.1, (h.2.2.1 rfl).1⟩

end IMUDrv
